import Mathlib

/-!
Shallow embedding of the AddressME web application's appointment-scheduling
core (src/app.py, src/models.py).

Conventions of the embedding:
* Absolute timestamps are natural numbers counting minutes; a calendar day has
  1440 minutes, so for a timestamp `t` the date is `t / 1440` and the
  time-of-day is `t % 1440`.
* Weekdays follow models.py (`day_of_week`: 0 = Monday … 6 = Sunday); we fix
  the epoch so that date `d` has weekday `d % 7` (date 0 is a Monday).
* Times-of-day (schedule start/end, break start/end) are minutes since
  midnight (`09:00` is 540, `12:00` is 720).
* Database rows become structures, the store becomes explicit lists inside
  `DBState`, and each Flask view function that the claims touch becomes a pure
  function from the old state (plus its request inputs) to the new state and a
  result signalling which `flash` branch was taken.
* SQLAlchemy's transaction is modelled by a `commitOk : Bool` parameter: the
  mutations are built up exactly in source order on a working copy and
  `db.session.commit` either installs the whole working copy (`commitOk =
  true`) or `db.session.rollback` discards it, returning the original state.
* `uuid.uuid4().hex` is modelled by a caller-supplied list of 32 hex nibbles
  (each `< 16`).
-/

namespace AddressME

/-- models.py `AvailableTimeSlot`: one bookable interval of one officer. -/
structure AvailableTimeSlot where
  id : Nat
  officer_id : Nat
  weekly_schedule_id : Option Nat := none
  start_time : Nat
  end_time : Nat
  is_booked : Bool := false
  municipality : Option String := none
  station_name : Option String := none
  postal_code : Option String := none
deriving Repr, DecidableEq

/-- models.py `User` (the fields the modelled operations read or write). -/
structure UserRec where
  id : Nat
  fullName : String
  email : String
  isVerified : Bool
deriving Repr, DecidableEq

/-- models.py `ResidentInfo` (the fields the modelled operations touch). -/
structure ResidentInfo where
  user_id : Nat
  firstName : String
  lastName : String
  phoneNumber : String
deriving Repr, DecidableEq

/-- models.py `AddressApplication`. -/
structure AddressApplication where
  id : Nat
  applicant_id : Nat
  leader_id : Option Nat := none
  officer_id : Option Nat := none
  status : String := "pending"
  leader_notes : Option String := none
  officer_notes : Option String := none
deriving Repr, DecidableEq

/-- models.py `Appointment`. -/
structure Appointment where
  id : Nat
  resident_id : Nat
  officer_id : Nat
  application_id : Nat
  appointment_date : Nat
  duration_minutes : Nat := 30
  status : String := "scheduled"
deriving Repr, DecidableEq

/-- models.py `AddressCertificate`. -/
structure AddressCertificate where
  application_id : Nat
  certificate_number : String
  issue_date : Nat
  expiry_date : Nat
  pdf_path : String := "/static/certificates/demo_certificate.pdf"
deriving Repr, DecidableEq

/-- The relational store: one list per table the claims touch. -/
structure DBState where
  users : List UserRec := []
  resident_infos : List ResidentInfo := []
  applications : List AddressApplication := []
  appointments : List Appointment := []
  slots : List AvailableTimeSlot := []
  certificates : List AddressCertificate := []
deriving Repr, DecidableEq

/-- Fresh primary key: one more than the largest id in use (autoincrement). -/
def nextId (ids : List Nat) : Nat := ids.foldr max 0 + 1

def nextSlotId (l : List AvailableTimeSlot) : Nat := nextId (l.map (fun s => s.id))

def nextAppointmentId (l : List Appointment) : Nat := nextId (l.map (fun a => a.id))

/-- app.py:2235-2239 and app.py:2021-2025: the overlap query
`officer_id == officer AND start_time < e AND end_time > s` over the persisted
slots (half-open interval intersection). -/
def overlapsExisting (slots : List AvailableTimeSlot) (officer s e : Nat) : Bool :=
  slots.any fun t => t.officer_id == officer && t.start_time < e && t.end_time > s

/-- app.py:2220-2227: a candidate slot clashes with a scheduled break when
`slot_start_time < break_end AND slot_end_time > break_start`, comparing
times-of-day. -/
def overlapsAnyBreak (slotStart slotEnd : Nat) (brs : List (Nat × Nat)) : Bool :=
  brs.any fun b => slotStart % 1440 < b.2 && slotEnd % 1440 > b.1

/-- app.py:2215-2263: the inner `while current_slot_start + interview_duration
<= day_end` loop of `police_add_weekly_availability`.  A break-clash advances
by the 30-minute duration only (app.py:2231); otherwise the cursor advances by
duration + 15-minute gap (app.py:2263), and the slot is persisted unless it
overlaps an existing slot of the same officer.  `acc` is the full slot table
(the query at app.py:2235 sees the rows added earlier in the batch through
autoflush).  The loop is driven by fuel; each iteration advances the cursor by
at least 30 minutes, so the fuel `dayEnd + 1` supplied by the caller is never
exhausted. -/
def slotWalk (officer schedId : Nat) (brs : List (Nat × Nat))
    (muni station postal : Option String) (dayEnd : Nat) :
    Nat → Nat → List AvailableTimeSlot → List AvailableTimeSlot
  | 0, _, acc => acc
  | fuel + 1, cur, acc =>
    if cur + 30 ≤ dayEnd then
      if overlapsAnyBreak cur (cur + 30) brs then
        slotWalk officer schedId brs muni station postal dayEnd fuel (cur + 30) acc
      else if overlapsExisting acc officer cur (cur + 30) then
        slotWalk officer schedId brs muni station postal dayEnd fuel (cur + 30 + 15) acc
      else
        slotWalk officer schedId brs muni station postal dayEnd fuel (cur + 30 + 15)
          (acc ++ [{ id := nextSlotId acc, officer_id := officer,
                     weekly_schedule_id := some schedId, start_time := cur,
                     end_time := cur + 30, is_booked := false,
                     municipality := muni, station_name := station,
                     postal_code := postal }])
    else acc

/-- app.py:2194-2263: one iteration of the `for week in range(4)` loop of
`police_add_weekly_availability`: the whole occurrence is skipped when its
`day_start` lies in the past (app.py:2201-2202); otherwise the interval is
walked. -/
def weeklyOccurrenceWalk (officer schedId startTod endTod : Nat)
    (brs : List (Nat × Nat)) (now : Nat) (muni station postal : Option String)
    (nextDate : Nat) (acc : List AvailableTimeSlot) (week : Nat) :
    List AvailableTimeSlot :=
  let slotDate := nextDate + week * 7
  let dayStart := slotDate * 1440 + startTod
  let dayEnd := slotDate * 1440 + endTod
  if dayStart < now then acc
  else slotWalk officer schedId brs muni station postal dayEnd (dayEnd + 1) dayStart acc

/-- app.py:2183-2263: the slot-generation part of
`police_add_weekly_availability` (after the schedule row and its breaks are
validated and stored).  Computes the next occurrence of `dayOfWeek` (rolling a
same-day schedule to next week only when the current time-of-day has reached
the end time), then runs `weeklyOccurrenceWalk` for each of the 4 weekly
occurrences.  Returns the full slot table. -/
def police_add_weekly_availability_slots (slots : List AvailableTimeSlot)
    (officer schedId dayOfWeek startTod endTod : Nat) (brs : List (Nat × Nat))
    (now : Nat) (muni station postal : Option String) : List AvailableTimeSlot :=
  let nowDate := now / 1440
  let nowTod := now % 1440
  let daysAhead0 := (dayOfWeek + 7 - nowDate % 7) % 7
  let daysAhead := if daysAhead0 = 0 ∧ endTod ≤ nowTod then 7 else daysAhead0
  let nextDate := nowDate + daysAhead
  (List.range 4).foldl
    (weeklyOccurrenceWalk officer schedId startTod endTod brs now muni station
      postal nextDate)
    slots

/-- app.py:1994-2045: the POST body of `police_add_availability` (ad-hoc slot
insertion) after date parsing: reject `start ≥ end`, a start in the past, or
an overlap with an existing slot of the officer; otherwise append the slot. -/
inductive AddSlotResult
  | ok
  | endNotAfterStart
  | inPast
  | overlapConflict
deriving Repr, DecidableEq

def police_add_availability (slots : List AvailableTimeSlot) (officer : Nat)
    (startDT endDT now : Nat) (muni station postal : Option String) :
    List AvailableTimeSlot × AddSlotResult :=
  if endDT ≤ startDT then (slots, .endNotAfterStart)
  else if startDT < now then (slots, .inPast)
  else if overlapsExisting slots officer startDT endDT then (slots, .overlapConflict)
  else
    (slots ++ [{ id := nextSlotId slots, officer_id := officer,
                 weekly_schedule_id := none, start_time := startDT,
                 end_time := endDT, is_booked := false, municipality := muni,
                 station_name := station, postal_code := postal }], .ok)

/-- app.py:2685-2702: the demo-slot creation inside `schedule_interview`.
When no unbooked slot exists at all and at least one approved officer exists,
it inserts, for each of the next 7 days starting tomorrow and each hour in
{9, 11, 13, 15}, a 30-minute slot for the first officer — with no overlap
check against existing (booked) slots and no location data. -/
def schedule_interview_demo_slots (st : DBState) (officers : List Nat)
    (now : Nat) : DBState :=
  match officers with
  | [] => st
  | o :: _ =>
    if (st.slots.filter fun s => s.is_booked = false).isEmpty then
      let startDate := (now + 1440) / 1440
      let times := (List.range 7).flatMap fun day =>
        [9, 11, 13, 15].map fun hour => (startDate + day) * 1440 + hour * 60
      let base := nextSlotId st.slots
      { st with slots := st.slots ++ times.mapIdx fun i t =>
          { id := base + i, officer_id := o, weekly_schedule_id := none,
            start_time := t, end_time := t + 30, is_booked := false } }
    else st

/-- The per-officer non-overlap invariant of §3 of the spec: no two distinct
slots of the same officer intersect as half-open intervals. -/
def slotsOverlap (s t : AvailableTimeSlot) : Bool :=
  s.start_time < t.end_time && t.start_time < s.end_time

def officerOverlapFree : List AvailableTimeSlot → Bool
  | [] => true
  | s :: rest =>
    (rest.all fun t => !(t.officer_id == s.officer_id && slotsOverlap s t)) &&
      officerOverlapFree rest

/-- Python hex digits: `hex(n)` uses lowercase `0-9a-f`. -/
def hexCharLower (n : Nat) : Char :=
  if n < 10 then Char.ofNat (48 + n) else Char.ofNat (97 + (n - 10))

/-- app.py:2528: `certificate_number = "AM-" + uuid.uuid4().hex[:8].upper()`
(f-string written out).  `nibbles` stands for the 32 hex nibbles of
`uuid4().hex`. -/
def mkCertificateNumber (nibbles : List Nat) : String :=
  "AM-" ++ String.mk (((nibbles.map hexCharLower).take 8).map Char.toUpper)

def findApplication (st : DBState) (id : Nat) : Option AddressApplication :=
  st.applications.find? fun a => a.id == id

def findSlot (st : DBState) (id : Nat) : Option AvailableTimeSlot :=
  st.slots.find? fun s => s.id == id

def findAppointment (st : DBState) (id : Nat) : Option Appointment :=
  st.appointments.find? fun a => a.id == id

inductive BookResult
  | appNotFound
  | notReady
  | slotNotFound
  | alreadyBooked
  | noLeaderApproved
  | alreadyScheduled
  | committed
  | rolledBack
deriving Repr, DecidableEq

/-- app.py:2450-2554 `book_interview_slot`: the resident books slot `slotId`
for application `applicationId`.  Preconditions in source order: the
application exists and belongs to the resident, its status is
`leader_approved`, the slot exists and is unbooked.  Effects, built in source
order on the working copy: a `completed` appointment, the chosen slot booked,
every *other* unbooked slot of the same officer intersecting
`[slot.start, slot.end + 15)` booked, the application `approved` with officer
attribution, and a certificate valid 365 days.  The single
commit/rollback installs or discards everything (`commitOk`). -/
def book_interview_slot (st : DBState) (residentId slotId applicationId : Nat)
    (now : Nat) (uuidHex : List Nat) (commitOk : Bool) : DBState × BookResult :=
  match findApplication st applicationId with
  | none => (st, .appNotFound)
  | some application =>
    if application.applicant_id ≠ residentId then (st, .appNotFound)
    else if application.status ≠ "leader_approved" then (st, .notReady)
    else
      match findSlot st slotId with
      | none => (st, .slotNotFound)
      | some time_slot =>
        if time_slot.is_booked then (st, .alreadyBooked)
        else
          let appointment : Appointment :=
            { id := nextAppointmentId st.appointments, resident_id := residentId,
              officer_id := time_slot.officer_id, application_id := application.id,
              appointment_date := time_slot.start_time, duration_minutes := 30,
              status := "completed" }
          let bufferEnd := time_slot.end_time + 15
          let slots1 := st.slots.map fun s =>
            if s.id = time_slot.id then { s with is_booked := true }
            else if s.officer_id = time_slot.officer_id ∧ s.is_booked = false ∧
                s.start_time < bufferEnd ∧ time_slot.start_time < s.end_time then
              { s with is_booked := true }
            else s
          let applications1 := st.applications.map fun a =>
            if a.id = application.id then
              { a with
                  status := "approved"
                  officer_id := some time_slot.officer_id
                  officer_notes := some "Auto-approved for testing purposes" }
            else a
          let certificate : AddressCertificate :=
            { application_id := application.id,
              certificate_number := mkCertificateNumber uuidHex,
              issue_date := now, expiry_date := now + 365 * 1440 }
          if commitOk then
            ({ st with
                slots := slots1
                applications := applications1
                appointments := st.appointments ++ [appointment]
                certificates := st.certificates ++ [certificate] }, .committed)
          else (st, .rolledBack)

/-- app.py:609-736 `resident_schedule_interview` (POST branch): finds the
resident's `leader_approved` application (app.py:623-637), rejects when an
appointment already exists for it (app.py:643-646), then books the chosen slot
— marking *only* that slot booked (app.py:705), with no buffer pass — creates
a `completed` appointment, auto-approves the application and issues a
certificate, all committed together. -/
def resident_schedule_interview_book (st : DBState) (residentId slotId : Nat)
    (now : Nat) (uuidHex : List Nat) (commitOk : Bool) : DBState × BookResult :=
  match st.applications.find? fun a =>
      a.applicant_id == residentId && a.status == "leader_approved" with
  | none => (st, .noLeaderApproved)
  | some pending_application =>
    if (st.appointments.find? fun ap =>
        ap.application_id == pending_application.id).isSome then
      (st, .alreadyScheduled)
    else
      match findSlot st slotId with
      | none => (st, .slotNotFound)
      | some time_slot =>
        if time_slot.is_booked then (st, .alreadyBooked)
        else
          let appointment : Appointment :=
            { id := nextAppointmentId st.appointments, resident_id := residentId,
              officer_id := time_slot.officer_id,
              application_id := pending_application.id,
              appointment_date := time_slot.start_time, duration_minutes := 30,
              status := "completed" }
          let slots1 := st.slots.map fun s =>
            if s.id = time_slot.id then { s with is_booked := true } else s
          let applications1 := st.applications.map fun a =>
            if a.id = pending_application.id then
              { a with
                  status := "approved"
                  officer_id := some time_slot.officer_id
                  officer_notes := some "Auto-approved for testing purposes" }
            else a
          let certificate : AddressCertificate :=
            { application_id := pending_application.id,
              certificate_number := mkCertificateNumber uuidHex,
              issue_date := now, expiry_date := now + 365 * 1440 }
          if commitOk then
            ({ st with
                slots := slots1
                applications := applications1
                appointments := st.appointments ++ [appointment]
                certificates := st.certificates ++ [certificate] }, .committed)
          else (st, .rolledBack)

inductive CancelResult
  | apptNotFound
  | cannotCancel
  | committed
  | rolledBack
deriving Repr, DecidableEq

/-- app.py:2592-2599: `AvailableTimeSlot.query.filter_by(...).first()` followed
by `time_slot.is_booked = False` — the first slot satisfying the predicate is
freed, all others untouched. -/
def freeFirstMatching (p : AvailableTimeSlot → Bool) :
    List AvailableTimeSlot → List AvailableTimeSlot
  | [] => []
  | s :: rest =>
    if p s then { s with is_booked := false } :: rest
    else s :: freeFirstMatching p rest

/-- The slot consumed by an appointment, per app.py:2592-2596: same officer,
start time equal to the appointment date, currently booked. -/
def consumedSlotPred (ap : Appointment) (s : AvailableTimeSlot) : Bool :=
  s.officer_id == ap.officer_id && s.start_time == ap.appointment_date &&
    s.is_booked == true

/-- app.py:2556-2612 `cancel_interview`: the appointment must exist, belong to
the resident and have status `scheduled`; then it is cancelled, the linked
application (when it exists) reverts to `leader_approved`, and the first
booked slot of the same officer starting at the appointment date is freed. -/
def cancel_interview (st : DBState) (residentId appointmentId : Nat)
    (commitOk : Bool) : DBState × CancelResult :=
  match findAppointment st appointmentId with
  | none => (st, .apptNotFound)
  | some appointment =>
    if appointment.resident_id ≠ residentId then (st, .apptNotFound)
    else if appointment.status ≠ "scheduled" then (st, .cannotCancel)
    else
      let appointments1 := st.appointments.map fun a =>
        if a.id = appointment.id then { a with status := "cancelled" } else a
      let applications1 := st.applications.map fun a =>
        if a.id = appointment.application_id then
          { a with status := "leader_approved" }
        else a
      let slots1 := freeFirstMatching (consumedSlotPred appointment) st.slots
      if commitOk then
        ({ st with
            appointments := appointments1
            applications := applications1
            slots := slots1 }, .committed)
      else (st, .rolledBack)

inductive ProfileResult
  | ok
  | missingFields
deriving Repr, DecidableEq

/-- app.py:1037-1066: the `personal_info` branch of
`resident_profile_settings`.  When all four form fields are non-empty
(Python truthiness of the form values), it updates the resident's names and
phone, the user's email and full name, resets `isVerified` to `False`, and
sets every `pending` application of the resident to `cancelled` with an
explanatory leader note. -/
def resident_profile_settings_personal_info (st : DBState) (residentId : Nat)
    (firstName lastName phoneNumber email : String) : DBState × ProfileResult :=
  if firstName.isEmpty ∨ lastName.isEmpty ∨ phoneNumber.isEmpty ∨ email.isEmpty then
    (st, .missingFields)
  else
    ({ st with
        resident_infos := st.resident_infos.map fun r =>
          if r.user_id = residentId then
            { r with
                firstName := firstName
                lastName := lastName
                phoneNumber := phoneNumber }
          else r
        users := st.users.map fun u =>
          if u.id = residentId then
            { u with
                email := email
                fullName := firstName ++ " " ++ lastName
                isVerified := false }
          else u
        applications := st.applications.map fun a =>
          if a.applicant_id = residentId ∧ a.status = "pending" then
            { a with
                status := "cancelled"
                leader_notes :=
                  some "Application cancelled due to profile information change." }
          else a }, .ok)

/-- Placeholder records used only as `List.getD` defaults in theorem
statements; every indexed access is guarded by a bounds hypothesis. -/
def dummySlot : AvailableTimeSlot :=
  { id := 0, officer_id := 0, start_time := 0, end_time := 0 }

def dummyApplication : AddressApplication := { id := 0, applicant_id := 0 }

def dummyUser : UserRec :=
  { id := 0, fullName := "", email := "", isVerified := false }

def dummyCert : AddressCertificate :=
  { application_id := 0, certificate_number := "", issue_date := 0,
    expiry_date := 0 }

/-- The uppercase hexadecimal alphabet of §6 of the spec. -/
def hexUpperChars : List Char := "0123456789ABCDEF".data

/-- `AM-` followed by exactly 8 uppercase hexadecimal characters. -/
def certNumberOk (s : String) : Prop :=
  s.data.take 3 = "AM-".data ∧ s.data.length = 11 ∧
    ∀ c ∈ s.data.drop 3, c ∈ hexUpperChars

/-- The buffer test of the claim: another slot is hit by booking the
30-minute slot `chosen` exactly when it is unbooked, belongs to the same
officer, starts before `chosen.start + 45` and ends after `chosen.start`. -/
def bufferHit (chosen s : AvailableTimeSlot) : Prop :=
  s.officer_id = chosen.officer_id ∧ s.is_booked = false ∧
    s.start_time < chosen.start_time + 45 ∧ chosen.start_time < s.end_time

instance (chosen s : AvailableTimeSlot) : Decidable (bufferHit chosen s) := by
  unfold bufferHit; infer_instance

/-- A fixed value standing for the 32 hex nibbles of one `uuid4().hex`. -/
def hex32 : List Nat := List.replicate 32 0

/-- The §8 scenario: officer 1 creates weekly schedule Monday (day 0)
09:00–12:00 with one break 10:00–10:15, generating at time 0 (a Monday
midnight) over an empty slot table. -/
def c1Generated : List AvailableTimeSlot :=
  police_add_weekly_availability_slots [] 1 1 0 540 720 [(600, 615)] 0
    none none none

/-- Same Monday 09:00–12:00 schedule without breaks, generated on a Monday at
10:00 (now = 600): the day matches and 10:00 is before the 12:00 end. -/
def c5Generated : List AvailableTimeSlot :=
  police_add_weekly_availability_slots [] 1 1 0 540 720 [] 600 none none none

/-- Officer 1 has two adjacent unbooked 30-minute slots 10:00-10:30 and
10:30-11:00; resident 1 holds leader-approved application 1. -/
def c2State : DBState :=
  { applications := [{ id := 1, applicant_id := 1, status := "leader_approved" }]
    slots := [{ id := 1, officer_id := 1, start_time := 600, end_time := 630 },
              { id := 2, officer_id := 1, start_time := 630, end_time := 660 }] }

/-- The leader-approved application of `c2State`. -/
def c2App : AddressApplication :=
  { id := 1, applicant_id := 1, status := "leader_approved" }

/-- The first slot of `c2State`. -/
def c2Slot1 : AvailableTimeSlot :=
  { id := 1, officer_id := 1, start_time := 600, end_time := 630 }

/-- The booked slot of `c6State`. -/
def c6Slot : AvailableTimeSlot :=
  { id := 1, officer_id := 1, start_time := 600, end_time := 630,
    is_booked := true }

/-- The scheduled appointment of `c7State`. -/
def c7Appt : Appointment :=
  { id := 1, resident_id := 1, officer_id := 2, application_id := 1,
    appointment_date := 600, status := "scheduled" }

/-- The consumed slot of `c7State`. -/
def c7Slot : AvailableTimeSlot :=
  { id := 1, officer_id := 2, start_time := 600, end_time := 630,
    is_booked := true }

/-- Officer 1 inserts an ad-hoc slot tomorrow 09:00-09:30 (minutes 1980-2010
seen from now = 0) into an empty table. -/
def c3AdHoc : List AvailableTimeSlot × AddSlotResult :=
  police_add_availability [] 1 1980 2010 0 none none none

def c3AfterAdHoc : DBState :=
  { applications := [{ id := 1, applicant_id := 1, status := "leader_approved" }]
    slots := c3AdHoc.1 }

/-- Resident 1 books the single slot: it becomes booked, so no unbooked slot
remains anywhere. -/
def c3AfterBooking : DBState := (book_interview_slot c3AfterAdHoc 1 1 1 0 hex32 true).1

/-- A later `schedule_interview` request finds no unbooked slot and runs the
demo-slot creation for officer 1 at now = 0; its first demo slot is tomorrow
09:00-09:30, on top of the booked slot. -/
def c3AfterDemo : DBState := schedule_interview_demo_slots c3AfterBooking [1] 0

/-- Resident 1 holds leader-approved application 1; officer 1's only slot is
already booked. -/
def c6State : DBState :=
  { applications := [{ id := 1, applicant_id := 1, status := "leader_approved" }]
    slots := [{ id := 1, officer_id := 1, start_time := 600, end_time := 630,
                is_booked := true }] }

/-- Resident 1 has a `scheduled` appointment with officer 2 at minute 600,
whose consumed slot is the only (booked) slot. -/
def c7State : DBState :=
  { applications := [{ id := 1, applicant_id := 1, status := "interview_scheduled" }]
    appointments := [{ id := 1, resident_id := 1, officer_id := 2,
                       application_id := 1, appointment_date := 600,
                       status := "scheduled" }]
    slots := [{ id := 1, officer_id := 2, start_time := 600, end_time := 630,
                is_booked := true }] }

/-- Resident 1 is verified and has a pending application. -/
def c8State : DBState :=
  { users := [{ id := 1, fullName := "Ada Lovelace", email := "ada@example.com",
                isVerified := true }]
    resident_infos := [{ user_id := 1, firstName := "Ada", lastName := "Lovelace",
                         phoneNumber := "0123456789" }]
    applications := [{ id := 1, applicant_id := 1, status := "pending" }] }

lemma getD_map_of_lt {α β : Type} (f : α → β) (l : List α) (d1 : α) (d2 : β) :
    ∀ i, i < l.length → (l.map f).getD i d2 = f (l.getD i d1) := by
  induction l with
  | nil => intro i h; simp at h
  | cons x xs ih =>
    intro i h
    cases i with
    | zero => rfl
    | succ j => exact ih j (by simpa using h)

lemma le_foldr_max (l : List Nat) : ∀ x ∈ l, x ≤ l.foldr max 0 := by
  induction l with
  | nil => intro x h; simp at h
  | cons y ys ih =>
    intro x h
    rcases List.mem_cons.mp h with h | h
    · subst h; simp [List.foldr]
    · exact le_trans (ih x h) (by simp [List.foldr])

lemma appointment_id_lt_nextId (l : List Appointment) :
    ∀ a ∈ l, a.id < nextAppointmentId l := by
  intro a ha
  have := le_foldr_max (l.map fun a => a.id) a.id (List.mem_map_of_mem _ ha)
  unfold nextAppointmentId nextId
  omega

lemma find?_append_of_forall_false {α : Type} {p : α → Bool} {l₁ : List α}
    (l₂ : List α) (h : ∀ a ∈ l₁, p a = false) :
    List.find? p (l₁ ++ l₂) = List.find? p l₂ := by
  induction l₁ with
  | nil => rfl
  | cons x xs ih =>
    have hx := h x (List.mem_cons_self x xs)
    simp only [List.cons_append, List.find?, hx]
    exact ih fun a ha => h a (List.mem_cons_of_mem x ha)

lemma officerOverlapFree_append (l : List AvailableTimeSlot)
    (x : AvailableTimeSlot) (hl : officerOverlapFree l = true)
    (hx : ∀ t ∈ l, t.officer_id = x.officer_id → slotsOverlap t x = false) :
    officerOverlapFree (l ++ [x]) = true := by
  induction l with
  | nil => simp [officerOverlapFree]
  | cons s rest ih =>
    simp only [officerOverlapFree, Bool.and_eq_true, List.all_eq_true] at hl
    obtain ⟨h1, h2⟩ := hl
    simp only [List.cons_append, officerOverlapFree, Bool.and_eq_true,
      List.all_eq_true]
    refine ⟨?_, ih h2 fun t ht he => hx t (List.mem_cons_of_mem s ht) he⟩
    intro t ht
    rcases List.mem_append.mp ht with h | h
    · exact h1 t h
    · have hts : t = x := by simpa using h
      subst hts
      by_cases he : t.officer_id = s.officer_id
      · have := hx s (List.mem_cons_self s rest) he.symm
        simp [this]
      · simp only [Bool.not_eq_true', Bool.and_eq_false_iff, beq_eq_false_iff_ne,
          ne_eq]
        exact Or.inl he

lemma foldl_preserves {α β : Type} (P : α → Prop) (f : α → β → α)
    (l : List β) (a : α) (h0 : P a)
    (hstep : ∀ x, P x → ∀ b ∈ l, P (f x b)) : P (l.foldl f a) := by
  induction l generalizing a with
  | nil => exact h0
  | cons b bs ih =>
    exact ih (f a b) (hstep a h0 b (List.mem_cons_self b bs))
      fun x hx c hc => hstep x hx c (List.mem_cons_of_mem b hc)

lemma slotWalk_start_le (officer schedId : Nat) (brs : List (Nat × Nat))
    (muni station postal : Option String) (dayEnd : Nat) :
    ∀ fuel cur acc s,
      s ∈ slotWalk officer schedId brs muni station postal dayEnd fuel cur acc →
      s ∈ acc ∨ cur ≤ s.start_time := by
  intro fuel
  induction fuel with
  | zero => intro cur acc s hs; exact Or.inl hs
  | succ n ih =>
    intro cur acc s hs
    simp only [slotWalk] at hs
    split at hs
    · split at hs
      · rcases ih _ _ _ hs with h | h
        · exact Or.inl h
        · right; omega
      · split at hs
        · rcases ih _ _ _ hs with h | h
          · exact Or.inl h
          · right; omega
        · rcases ih _ _ _ hs with h | h
          · rcases List.mem_append.mp h with h1 | h1
            · exact Or.inl h1
            · right
              have : s.start_time = cur := by
                simp only [List.mem_singleton] at h1
                rw [h1]
              omega
          · right; omega
    · exact Or.inl hs

lemma slotWalk_overlapFree (officer schedId : Nat) (brs : List (Nat × Nat))
    (muni station postal : Option String) (dayEnd : Nat) :
    ∀ fuel cur acc, officerOverlapFree acc = true →
      officerOverlapFree
        (slotWalk officer schedId brs muni station postal dayEnd fuel cur acc) =
        true := by
  intro fuel
  induction fuel with
  | zero => intro cur acc h; exact h
  | succ n ih =>
    intro cur acc h
    simp only [slotWalk]
    split
    · split
      · exact ih _ _ h
      · split
        · exact ih _ _ h
        · rename_i hov
          refine ih _ _ (officerOverlapFree_append acc _ h ?_)
          intro t ht he
          rw [Bool.not_eq_true, overlapsExisting, List.any_eq_false] at hov
          have hpred := hov t ht
          simp only [Bool.and_eq_true, beq_iff_eq, decide_eq_true_eq, gt_iff_lt,
            not_and] at hpred
          have he2 : t.officer_id = officer := he
          simp only [slotsOverlap]
          simp only [Bool.and_eq_false_iff, decide_eq_false_iff_not, not_lt]
          rcases Nat.lt_or_ge t.start_time (cur + 30) with hlt | hge
          · have hq := hpred ⟨he2, hlt⟩
            right
            omega
          · left
            exact hge
    · exact h

lemma weeklyOccurrenceWalk_overlapFree (officer schedId startTod endTod : Nat)
    (brs : List (Nat × Nat)) (now : Nat) (muni station postal : Option String)
    (nextDate : Nat) (acc : List AvailableTimeSlot) (week : Nat)
    (h : officerOverlapFree acc = true) :
    officerOverlapFree (weeklyOccurrenceWalk officer schedId startTod endTod
      brs now muni station postal nextDate acc week) = true := by
  unfold weeklyOccurrenceWalk
  dsimp only
  split
  · exact h
  · exact slotWalk_overlapFree _ _ _ _ _ _ _ _ _ _ h

lemma weeklyOccurrenceWalk_start_le (officer schedId startTod endTod : Nat)
    (brs : List (Nat × Nat)) (now : Nat) (muni station postal : Option String)
    (nextDate : Nat) (acc : List AvailableTimeSlot) (week : Nat) :
    ∀ s ∈ weeklyOccurrenceWalk officer schedId startTod endTod brs now muni
        station postal nextDate acc week,
      s ∈ acc ∨
        (¬ (nextDate + week * 7) * 1440 + startTod < now ∧
          (nextDate + week * 7) * 1440 + startTod ≤ s.start_time) := by
  intro s hs
  unfold weeklyOccurrenceWalk at hs
  dsimp only at hs
  split at hs
  · exact Or.inl hs
  · rename_i hguard
    rcases slotWalk_start_le _ _ _ _ _ _ _ _ _ _ s hs with h | h
    · exact Or.inl h
    · exact Or.inr ⟨hguard, h⟩

/-- C1, counterexample: the claim lists 09:45-10:00 among the slots generated
for each Monday of the 09:00–12:00 schedule with break 10:00–10:15, but no
generated slot has these times — slots are always 30 minutes long, so the
09:45 candidate spans 09:45–10:15, overlaps the break and is skipped. -/
theorem C1_counterexample :
    ¬ ∃ s ∈ c1Generated, s.start_time % 1440 = 585 ∧ s.end_time % 1440 = 600 := by
  decide

/-- C1, amended: for the weekly Monday 09:00–12:00 schedule with break
10:00–10:15 (generated at a Monday midnight over an empty table), each of the
four generated Mondays gets exactly the slots 09:00-09:30, 10:15-10:45 and
11:00-11:30 — the 09:45 candidate spans 09:45–10:15 and is skipped for
overlapping the break — and no slot extends past 12:00. -/
theorem C1_weekly_generation :
    c1Generated.map (fun s => (s.start_time, s.end_time)) =
      [(540, 570), (615, 645), (660, 690),
       (10620, 10650), (10695, 10725), (10740, 10770),
       (20700, 20730), (20775, 20805), (20820, 20850),
       (30780, 30810), (30855, 30885), (30900, 30930)] ∧
    (∀ s ∈ c1Generated, s.end_time % 1440 ≤ 720) := by
  decide

/-- C5, counterexample: generating a Monday 09:00–12:00 schedule on a Monday
at 10:00 (day matches, current time before end), the candidate 10:30–11:00
(start 630) lies in the future, yet no slot starting at 630 is generated:
`day_start < now` discards today's whole occurrence. -/
theorem C5_counterexample : ¬ ∃ s ∈ c5Generated, s.start_time = 630 := by
  decide

/-- C2, counterexample: resident 1, holding leader-approved application 1,
books the unbooked slot [600, 630) through the `resident_schedule_interview`
booking path; slot 2 = [630, 660) of the same officer is unbooked and overlaps
[600, 645), yet it remains unbooked — this path applies no buffer pass. -/
theorem C2_counterexample :
    (resident_schedule_interview_book c2State 1 1 0 hex32 true).2 =
      BookResult.committed ∧
    ∃ s ∈ (resident_schedule_interview_book c2State 1 1 0 hex32 true).1.slots,
      s.id = 2 ∧ s.officer_id = 1 ∧ s.start_time = 630 ∧ s.end_time = 660 ∧
        s.is_booked = false := by
  decide

/-- C3, amended: the two slot-creating operations that check overlap — weekly
generation and ad-hoc insertion — preserve the per-officer non-overlap
invariant on the slot store. -/
theorem C3_invariant_preserved :
    (∀ (slots : List AvailableTimeSlot)
        (officer schedId dayOfWeek startTod endTod : Nat)
        (brs : List (Nat × Nat)) (now : Nat) (muni station postal : Option String),
        officerOverlapFree slots = true →
        officerOverlapFree (police_add_weekly_availability_slots slots officer
          schedId dayOfWeek startTod endTod brs now muni station postal) = true) ∧
    (∀ (slots : List AvailableTimeSlot) (officer startDT endDT now : Nat)
        (muni station postal : Option String),
        officerOverlapFree slots = true →
        officerOverlapFree (police_add_availability slots officer startDT endDT
          now muni station postal).1 = true) := by
  constructor
  · intro slots officer schedId dayOfWeek startTod endTod brs now muni station postal h
    simp only [police_add_weekly_availability_slots]
    exact foldl_preserves (fun l => officerOverlapFree l = true) _ (List.range 4)
      slots h
      (fun x hx b _ =>
        weeklyOccurrenceWalk_overlapFree _ _ _ _ _ _ _ _ _ _ _ _ hx)
  · intro slots officer startDT endDT now muni station postal h
    unfold police_add_availability
    split
    · exact h
    · split
      · exact h
      · split
        · exact h
        · rename_i hov
          refine officerOverlapFree_append slots _ h ?_
          intro t ht he
          rw [Bool.not_eq_true, overlapsExisting, List.any_eq_false] at hov
          have hpred := hov t ht
          simp only [Bool.and_eq_true, beq_iff_eq, decide_eq_true_eq, gt_iff_lt,
            not_and] at hpred
          have he2 : t.officer_id = officer := he
          simp only [slotsOverlap]
          simp only [Bool.and_eq_false_iff, decide_eq_false_iff_not, not_lt]
          rcases Nat.lt_or_ge t.start_time endDT with hlt | hge
          · have hq := hpred ⟨he2, hlt⟩
            right
            omega
          · left
            exact hge

/-- Witness: the invariant-preservation theorem applied to the two concrete
scenarios of this file. -/
theorem C3_invariant_preserved_witness :
    officerOverlapFree c1Generated = true ∧
    officerOverlapFree (police_add_availability [] 1 600 630 0
      none none none).1 = true :=
  ⟨C3_invariant_preserved.1 [] 1 1 0 540 720 [(600, 615)] 0 none none none
      (by decide),
   C3_invariant_preserved.2 [] 1 600 630 0 none none none (by decide)⟩

/-- C5, amended: when the schedule's day-of-week matches today, the current
time-of-day is before the schedule's end but past its start, generation drops
today's *whole* occurrence (`day_start < now` triggers `continue`): every
generated slot lies on a later date.  No per-candidate past-start filter
exists. -/
theorem C5_today_occurrence_dropped
    (slots : List AvailableTimeSlot)
    (officer schedId dayOfWeek startTod endTod : Nat) (brs : List (Nat × Nat))
    (now : Nat) (muni station postal : Option String)
    (hmatch : (now / 1440) % 7 = dayOfWeek)
    (hbefore : now % 1440 < endTod)
    (hpast : startTod < now % 1440) :
    ∀ s ∈ police_add_weekly_availability_slots slots officer schedId dayOfWeek
        startTod endTod brs now muni station postal,
      s ∈ slots ∨ 1440 * (now / 1440 + 1) ≤ s.start_time := by
  simp only [police_add_weekly_availability_slots]
  refine foldl_preserves
    (fun acc => ∀ s ∈ acc, s ∈ slots ∨ 1440 * (now / 1440 + 1) ≤ s.start_time)
    _ (List.range 4) slots (fun s hs => Or.inl hs) ?_
  intro x hx b _ s hs
  rcases weeklyOccurrenceWalk_start_le _ _ _ _ _ _ _ _ _ _ _ _ s hs
    with h | ⟨hguard, h⟩
  · exact hx s h
  · right
    rw [hmatch] at hguard h
    rw [if_neg (fun hc => absurd hc.2 (by omega))] at hguard h
    have hdm := Nat.div_add_mod now 1440
    omega

/-- Witness: the C5 theorem at the concrete Monday-10:00 scenario, applied to
the first generated slot. -/
theorem C5_today_occurrence_dropped_witness :
    c5Generated.getD 0 dummySlot ∈ ([] : List AvailableTimeSlot) ∨
      1440 * (600 / 1440 + 1) ≤ (c5Generated.getD 0 dummySlot).start_time :=
  C5_today_occurrence_dropped [] 1 1 0 540 720 [] 600 none none none
    (by decide) (by decide) (by decide) (c5Generated.getD 0 dummySlot) (by decide)

/-- C3, counterexample: a reachable slot store violating the invariant.  From
an empty store, officer 1 inserts an ad-hoc slot tomorrow 09:00-09:30,
resident 1 books it (so no unbooked slot remains), and the demo-slot creation
path of `schedule_interview` then inserts an unbooked slot for the same
officer at the same tomorrow 09:00-09:30 with no overlap check: the store now
holds two overlapping slots of officer 1. -/
theorem C3_counterexample :
    c3AdHoc.2 = AddSlotResult.ok ∧
    (book_interview_slot c3AfterAdHoc 1 1 1 0 hex32 true).2 =
      BookResult.committed ∧
    officerOverlapFree c3AfterBooking.slots = true ∧
    officerOverlapFree c3AfterDemo.slots = false := by
  decide

lemma book_interview_slot_commit (st : DBState)
    (residentId slotId applicationId now : Nat) (uuidHex : List Nat)
    (application : AddressApplication) (time_slot : AvailableTimeSlot)
    (hApp : findApplication st applicationId = some application)
    (hOwn : application.applicant_id = residentId)
    (hStatus : application.status = "leader_approved")
    (hSlot : findSlot st slotId = some time_slot)
    (hUnbooked : time_slot.is_booked = false) :
    book_interview_slot st residentId slotId applicationId now uuidHex true =
      ({ st with
          slots := st.slots.map fun s =>
            if s.id = time_slot.id then { s with is_booked := true }
            else if s.officer_id = time_slot.officer_id ∧ s.is_booked = false ∧
                s.start_time < time_slot.end_time + 15 ∧
                time_slot.start_time < s.end_time then
              { s with is_booked := true }
            else s
          applications := st.applications.map fun a =>
            if a.id = application.id then
              { a with
                  status := "approved"
                  officer_id := some time_slot.officer_id
                  officer_notes := some "Auto-approved for testing purposes" }
            else a
          appointments := st.appointments ++
            [{ id := nextAppointmentId st.appointments, resident_id := residentId,
               officer_id := time_slot.officer_id,
               application_id := application.id,
               appointment_date := time_slot.start_time, duration_minutes := 30,
               status := "completed" }]
          certificates := st.certificates ++
            [{ application_id := application.id,
               certificate_number := mkCertificateNumber uuidHex,
               issue_date := now, expiry_date := now + 365 * 1440 }] },
        BookResult.committed) := by
  unfold book_interview_slot
  rw [hApp, hSlot]
  simp [hOwn, hStatus, hUnbooked]

lemma book_interview_slot_rollback (st : DBState)
    (residentId slotId applicationId now : Nat) (uuidHex : List Nat)
    (application : AddressApplication) (time_slot : AvailableTimeSlot)
    (hApp : findApplication st applicationId = some application)
    (hOwn : application.applicant_id = residentId)
    (hStatus : application.status = "leader_approved")
    (hSlot : findSlot st slotId = some time_slot)
    (hUnbooked : time_slot.is_booked = false) :
    book_interview_slot st residentId slotId applicationId now uuidHex false =
      (st, BookResult.rolledBack) := by
  unfold book_interview_slot
  rw [hApp, hSlot]
  simp [hOwn, hStatus, hUnbooked]

/-- C4, confirmed: the booking transaction is all-or-nothing.  With the
preconditions satisfied, a failing commit (`commitOk = false`) rolls
everything back — the returned state is the original one, so the chosen slot
stays unbooked, the application status is unchanged, and no appointment or
certificate is added — while a successful commit installs all five effects at
once: the chosen slot booked, the buffer slots booked, the `completed`
appointment, the approved application and the certificate. -/
theorem C4_book_slot_atomicity (st : DBState)
    (residentId slotId applicationId now : Nat) (uuidHex : List Nat)
    (application : AddressApplication) (time_slot : AvailableTimeSlot)
    (hApp : findApplication st applicationId = some application)
    (hOwn : application.applicant_id = residentId)
    (hStatus : application.status = "leader_approved")
    (hSlot : findSlot st slotId = some time_slot)
    (hUnbooked : time_slot.is_booked = false) :
    book_interview_slot st residentId slotId applicationId now uuidHex false =
      (st, BookResult.rolledBack) ∧
    (book_interview_slot st residentId slotId applicationId now uuidHex true).2 =
      BookResult.committed ∧
    (book_interview_slot st residentId slotId applicationId now uuidHex
        true).1.appointments =
      st.appointments ++
        [{ id := nextAppointmentId st.appointments, resident_id := residentId,
           officer_id := time_slot.officer_id, application_id := application.id,
           appointment_date := time_slot.start_time, duration_minutes := 30,
           status := "completed" }] ∧
    (book_interview_slot st residentId slotId applicationId now uuidHex
        true).1.certificates =
      st.certificates ++
        [{ application_id := application.id,
           certificate_number := mkCertificateNumber uuidHex,
           issue_date := now, expiry_date := now + 365 * 1440 }] ∧
    (∀ s ∈ (book_interview_slot st residentId slotId applicationId now uuidHex
        true).1.slots, s.id = time_slot.id → s.is_booked = true) ∧
    (∀ a ∈ (book_interview_slot st residentId slotId applicationId now uuidHex
        true).1.applications, a.id = application.id → a.status = "approved") := by
  have hc := book_interview_slot_commit st residentId slotId applicationId now
    uuidHex application time_slot hApp hOwn hStatus hSlot hUnbooked
  refine ⟨book_interview_slot_rollback st residentId slotId applicationId now
    uuidHex application time_slot hApp hOwn hStatus hSlot hUnbooked,
    by rw [hc], by rw [hc], by rw [hc], ?_, ?_⟩
  · rw [hc]
    intro s hs hid
    obtain ⟨t, ht, rfl⟩ := List.mem_map.mp hs
    have htid : t.id = time_slot.id := by
      by_cases h1 : t.id = time_slot.id
      · exact h1
      · exfalso
        apply h1
        rw [← hid]
        split_ifs <;> rfl
    simp [htid]
  · rw [hc]
    intro a ha hid
    obtain ⟨b, hb, rfl⟩ := List.mem_map.mp ha
    have hbid : b.id = application.id := by
      by_cases h1 : b.id = application.id
      · exact h1
      · exfalso
        apply h1
        rw [← hid]
        split_ifs <;> rfl
    simp [hbid]

/-- Witness: atomicity at the concrete two-slot state `c2State`. -/
theorem C4_book_slot_atomicity_witness :
    book_interview_slot c2State 1 1 1 0 hex32 false =
      (c2State, BookResult.rolledBack) ∧
    (book_interview_slot c2State 1 1 1 0 hex32 true).2 =
      BookResult.committed :=
  have h := C4_book_slot_atomicity c2State 1 1 1 0 hex32 c2App c2Slot1
    (by decide) (by decide) (by decide) (by decide) (by decide)
  ⟨h.1, h.2.1⟩

/-- C6, confirmed: booking an already-booked slot fails (`alreadyBooked`
branch) and returns the state unchanged, whatever the commit flag — the
application keeps its status, no appointment or certificate is created, and
no slot is touched. -/
theorem C6_already_booked_rejected (st : DBState)
    (residentId slotId applicationId now : Nat) (uuidHex : List Nat)
    (commitOk : Bool)
    (application : AddressApplication) (time_slot : AvailableTimeSlot)
    (hApp : findApplication st applicationId = some application)
    (hOwn : application.applicant_id = residentId)
    (hStatus : application.status = "leader_approved")
    (hSlot : findSlot st slotId = some time_slot)
    (hBooked : time_slot.is_booked = true) :
    book_interview_slot st residentId slotId applicationId now uuidHex
      commitOk = (st, BookResult.alreadyBooked) := by
  unfold book_interview_slot
  rw [hApp, hSlot]
  simp [hOwn, hStatus, hBooked]

/-- Witness: the second resident's attempt on the consumed slot of `c6State`
is rejected with the state unchanged. -/
theorem C6_already_booked_rejected_witness :
    book_interview_slot c6State 1 1 1 0 hex32 true =
      (c6State, BookResult.alreadyBooked) :=
  C6_already_booked_rejected c6State 1 1 1 0 hex32 true c2App c6Slot
    (by decide) (by decide) (by decide) (by decide) (by decide)

/-- C2, amended: the buffer behaviour belongs to the `book_interview_slot`
operation only.  For that operation, booking the unbooked 30-minute slot
`time_slot` marks booked exactly the chosen slot and every *other* unbooked
slot of the same officer overlapping `[start, start + 45)` (start < T+45 and
end > T, half-open), and leaves every other slot record unchanged; the
`resident_schedule_interview` booking path marks only the chosen slot (see the
counterexample). -/
theorem C2_buffer_on_book_interview_slot (st : DBState)
    (residentId slotId applicationId now : Nat) (uuidHex : List Nat)
    (application : AddressApplication) (time_slot : AvailableTimeSlot)
    (hApp : findApplication st applicationId = some application)
    (hOwn : application.applicant_id = residentId)
    (hStatus : application.status = "leader_approved")
    (hSlot : findSlot st slotId = some time_slot)
    (hUnbooked : time_slot.is_booked = false)
    (h30 : time_slot.end_time = time_slot.start_time + 30) :
    ∀ i, i < st.slots.length →
      ((st.slots.getD i dummySlot).id = time_slot.id →
        (book_interview_slot st residentId slotId applicationId now uuidHex
            true).1.slots.getD i dummySlot =
          { st.slots.getD i dummySlot with is_booked := true }) ∧
      ((st.slots.getD i dummySlot).id ≠ time_slot.id →
        bufferHit time_slot (st.slots.getD i dummySlot) →
        (book_interview_slot st residentId slotId applicationId now uuidHex
            true).1.slots.getD i dummySlot =
          { st.slots.getD i dummySlot with is_booked := true }) ∧
      ((st.slots.getD i dummySlot).id ≠ time_slot.id →
        ¬ bufferHit time_slot (st.slots.getD i dummySlot) →
        (book_interview_slot st residentId slotId applicationId now uuidHex
            true).1.slots.getD i dummySlot = st.slots.getD i dummySlot) := by
  have hc := book_interview_slot_commit st residentId slotId applicationId now
    uuidHex application time_slot hApp hOwn hStatus hSlot hUnbooked
  intro i hi
  rw [hc]
  dsimp only
  rw [getD_map_of_lt _ st.slots dummySlot dummySlot i hi]
  refine ⟨?_, ?_, ?_⟩
  · intro hid
    rw [if_pos hid]
  · intro hid hbuf
    obtain ⟨hb1, hb2, hb3, hb4⟩ := hbuf
    rw [if_neg hid, if_pos ⟨hb1, hb2, by omega, hb4⟩]
  · intro hid hnbuf
    rw [if_neg hid, if_neg ?_]
    intro ⟨hb1, hb2, hb3, hb4⟩
    exact hnbuf ⟨hb1, hb2, by omega, hb4⟩

/-- Witness: in `c2State`, booking slot 1 = [600, 630) through
`book_interview_slot` marks the overlapping unbooked slot 2 = [630, 660)
booked. -/
theorem C2_buffer_on_book_interview_slot_witness :
    (book_interview_slot c2State 1 1 1 0 hex32 true).1.slots.getD 1 dummySlot =
      { c2State.slots.getD 1 dummySlot with is_booked := true } := by
  have h := C2_buffer_on_book_interview_slot c2State 1 1 1 0 hex32 c2App c2Slot1
    (by decide) (by decide) (by decide) (by decide) (by decide) (by decide)
    1 (by decide)
  exact h.2.1 (by decide) (by decide)

lemma freeFirstMatching_split (p : AvailableTimeSlot → Bool)
    (l₁ l₂ : List AvailableTimeSlot) (s0 : AvailableTimeSlot)
    (h1 : ∀ s ∈ l₁, p s = false) (h0 : p s0 = true) :
    freeFirstMatching p (l₁ ++ s0 :: l₂) =
      l₁ ++ { s0 with is_booked := false } :: l₂ := by
  induction l₁ with
  | nil => simp [freeFirstMatching, h0]
  | cons x xs ih =>
    have hx := h1 x (List.mem_cons_self x xs)
    simp only [List.cons_append, freeFirstMatching, hx, Bool.false_eq_true,
      if_false]
    exact congrArg (List.cons x) (ih fun s hs => h1 s (List.mem_cons_of_mem x hs))

lemma find?_id_eq {α : Type} {l : List α} {f : α → Nat} {n : Nat} {a : α}
    (h : List.find? (fun x => f x == n) l = some a) : f a = n := by
  have := List.find?_some h
  simpa using this

/-- C7, confirmed: cancelling a `scheduled` appointment of the requesting
resident marks the appointment `cancelled`, reverts the linked application to
`leader_approved`, and frees exactly the booked slot of the same officer whose
start equals the appointment date (assumed unique, as the store invariant
guarantees); every other slot record — in particular any buffer-affected
neighbour — is returned unchanged. -/
theorem C7_cancel_interview_effects (st : DBState)
    (residentId appointmentId : Nat) (ap : Appointment)
    (l₁ l₂ : List AvailableTimeSlot) (s0 : AvailableTimeSlot)
    (hFind : findAppointment st appointmentId = some ap)
    (hOwn : ap.resident_id = residentId)
    (hSched : ap.status = "scheduled")
    (hSplit : st.slots = l₁ ++ s0 :: l₂)
    (hs0 : consumedSlotPred ap s0 = true)
    (hl1 : ∀ s ∈ l₁, consumedSlotPred ap s = false)
    (hl2 : ∀ s ∈ l₂, consumedSlotPred ap s = false) :
    (cancel_interview st residentId appointmentId true).2 =
      CancelResult.committed ∧
    (cancel_interview st residentId appointmentId true).1.slots =
      l₁ ++ { s0 with is_booked := false } :: l₂ ∧
    (∀ a ∈ (cancel_interview st residentId appointmentId true).1.appointments,
      a.id = appointmentId → a.status = "cancelled") ∧
    (∀ a ∈ (cancel_interview st residentId appointmentId true).1.applications,
      a.id = ap.application_id → a.status = "leader_approved") := by
  have hid : ap.id = appointmentId := by
    unfold findAppointment at hFind
    exact find?_id_eq hFind
  have hcancel : cancel_interview st residentId appointmentId true =
      ({ st with
          appointments := st.appointments.map fun a =>
            if a.id = ap.id then { a with status := "cancelled" } else a
          applications := st.applications.map fun a =>
            if a.id = ap.application_id then { a with status := "leader_approved" }
            else a
          slots := freeFirstMatching (consumedSlotPred ap) st.slots },
        CancelResult.committed) := by
    unfold cancel_interview
    rw [hFind]
    simp [hOwn, hSched]
  refine ⟨by rw [hcancel], ?_, ?_, ?_⟩
  · rw [hcancel]
    dsimp only
    rw [hSplit]
    exact freeFirstMatching_split _ _ _ _ hl1 hs0
  · rw [hcancel]
    dsimp only
    intro a ha ha_id
    obtain ⟨b, hb, rfl⟩ := List.mem_map.mp ha
    have hbid : b.id = ap.id := by
      by_cases h1 : b.id = ap.id
      · exact h1
      · exfalso
        apply h1
        rw [hid, ← ha_id]
        split_ifs <;> rfl
    simp [hbid]
  · rw [hcancel]
    dsimp only
    intro a ha ha_id
    obtain ⟨b, hb, rfl⟩ := List.mem_map.mp ha
    have hbid : b.id = ap.application_id := by
      by_cases h1 : b.id = ap.application_id
      · exact h1
      · exfalso
        apply h1
        rw [← ha_id]
        split_ifs <;> rfl
    simp [hbid]

/-- Witness: cancelling the scheduled appointment of `c7State` frees its
consumed slot. -/
theorem C7_cancel_interview_effects_witness :
    (cancel_interview c7State 1 1 true).2 = CancelResult.committed ∧
    (cancel_interview c7State 1 1 true).1.slots =
      [] ++ { c7Slot with is_booked := false } :: [] :=
  have h := C7_cancel_interview_effects c7State 1 1 c7Appt [] [] c7Slot
    (by decide) (by decide) (by decide) (by decide) (by decide)
    (by intro s hs; simp at hs) (by intro s hs; simp at hs)
  ⟨h.1, h.2.1⟩

/-- C8, confirmed: a successful personal-information edit (all four form
fields non-empty) resets the resident's `isVerified` flag to false and moves
every `pending` application of that resident to `cancelled`. -/
theorem C8_profile_edit_cancels_pending (st : DBState) (residentId : Nat)
    (firstName lastName phoneNumber email : String)
    (h1 : firstName.isEmpty = false) (h2 : lastName.isEmpty = false)
    (h3 : phoneNumber.isEmpty = false) (h4 : email.isEmpty = false) :
    (resident_profile_settings_personal_info st residentId firstName lastName
        phoneNumber email).2 = ProfileResult.ok ∧
    (∀ i, i < st.applications.length →
      (st.applications.getD i dummyApplication).applicant_id = residentId →
      (st.applications.getD i dummyApplication).status = "pending" →
      ((resident_profile_settings_personal_info st residentId firstName lastName
          phoneNumber email).1.applications.getD i dummyApplication).status =
        "cancelled") ∧
    (∀ i, i < st.users.length →
      (st.users.getD i dummyUser).id = residentId →
      ((resident_profile_settings_personal_info st residentId firstName lastName
          phoneNumber email).1.users.getD i dummyUser).isVerified = false) := by
  unfold resident_profile_settings_personal_info
  rw [if_neg (by simp [h1, h2, h3, h4])]
  refine ⟨rfl, ?_, ?_⟩
  · intro i hi hres hpend
    dsimp only
    rw [getD_map_of_lt _ st.applications dummyApplication dummyApplication i hi]
    rw [if_pos ⟨hres, hpend⟩]
  · intro i hi hres
    dsimp only
    rw [getD_map_of_lt _ st.users dummyUser dummyUser i hi]
    rw [if_pos hres]

/-- Witness: resident 1 of `c8State` edits their name; the pending
application 1 is cancelled and `isVerified` drops to false. -/
theorem C8_profile_edit_cancels_pending_witness :
    ((resident_profile_settings_personal_info c8State 1 "Grace" "Hopper"
        "0123456789" "grace@example.com").1.applications.getD 0
          dummyApplication).status = "cancelled" ∧
    ((resident_profile_settings_personal_info c8State 1 "Grace" "Hopper"
        "0123456789" "grace@example.com").1.users.getD 0 dummyUser).isVerified =
      false :=
  have h := C8_profile_edit_cancels_pending c8State 1 "Grace" "Hopper"
    "0123456789" "grace@example.com" (by decide) (by decide) (by decide)
    (by decide)
  ⟨h.2.1 0 (by decide) (by decide) (by decide), h.2.2 0 (by decide) (by decide)⟩

lemma getD_append_singleton {α : Type} (l : List α) (c d : α) :
    (l ++ [c]).getD l.length d = c := by
  induction l with
  | nil => rfl
  | cons x xs ih => exact ih

lemma certNumberOk_mk (h : List Nat) (hLen : h.length = 32)
    (hHex : ∀ d ∈ h, d < 16) : certNumberOk (mkCertificateNumber h) := by
  have hdata : (mkCertificateNumber h).data =
      'A' :: 'M' :: '-' :: ((h.map hexCharLower).take 8).map Char.toUpper := by
    rfl
  unfold certNumberOk
  rw [hdata]
  refine ⟨rfl, ?_, ?_⟩
  · simp [List.length_take, hLen]
  · intro c hc
    simp only [List.drop_succ_cons, List.drop_zero] at hc
    obtain ⟨x, hx, rfl⟩ := List.mem_map.mp hc
    have hx2 : x ∈ h.map hexCharLower := List.mem_of_mem_take hx
    obtain ⟨d, hd, rfl⟩ := List.mem_map.mp hx2
    have hkey : ∀ e, e < 16 → (hexCharLower e).toUpper ∈ hexUpperChars := by
      decide
    exact hkey d (hHex d hd)

/-- C9, confirmed: the certificate issued by a successful booking has number
`AM-` followed by exactly 8 uppercase hexadecimal characters (the first 8
nibbles of `uuid4().hex`, uppercased) and `expiry_date = issue_date + 365`
days. -/
theorem C9_certificate_format (st : DBState)
    (residentId slotId applicationId now : Nat) (uuidHex : List Nat)
    (application : AddressApplication) (time_slot : AvailableTimeSlot)
    (hApp : findApplication st applicationId = some application)
    (hOwn : application.applicant_id = residentId)
    (hStatus : application.status = "leader_approved")
    (hSlot : findSlot st slotId = some time_slot)
    (hUnbooked : time_slot.is_booked = false)
    (hLen : uuidHex.length = 32) (hHex : ∀ d ∈ uuidHex, d < 16) :
    (book_interview_slot st residentId slotId applicationId now uuidHex
        true).1.certificates.length = st.certificates.length + 1 ∧
    certNumberOk ((book_interview_slot st residentId slotId applicationId now
        uuidHex true).1.certificates.getD st.certificates.length
          dummyCert).certificate_number ∧
    ((book_interview_slot st residentId slotId applicationId now uuidHex
        true).1.certificates.getD st.certificates.length dummyCert).expiry_date =
      ((book_interview_slot st residentId slotId applicationId now uuidHex
        true).1.certificates.getD st.certificates.length dummyCert).issue_date +
        365 * 1440 := by
  have hc := book_interview_slot_commit st residentId slotId applicationId now
    uuidHex application time_slot hApp hOwn hStatus hSlot hUnbooked
  rw [hc]
  dsimp only
  rw [getD_append_singleton]
  exact ⟨by simp, certNumberOk_mk uuidHex hLen hHex, rfl⟩

/-- Witness: the certificate created by booking in `c2State` with the fixed
nibble list `hex32`. -/
theorem C9_certificate_format_witness :
    (book_interview_slot c2State 1 1 1 0 hex32 true).1.certificates.length =
      c2State.certificates.length + 1 ∧
    certNumberOk ((book_interview_slot c2State 1 1 1 0 hex32
        true).1.certificates.getD c2State.certificates.length
          dummyCert).certificate_number :=
  have h := C9_certificate_format c2State 1 1 1 0 hex32 c2App c2Slot1
    (by decide) (by decide) (by decide) (by decide) (by decide) (by decide)
    (by decide)
  ⟨h.1, h.2.1⟩

/-- C10, confirmed: `book_interview_slot` creates its appointment directly in
status `completed`, and `cancel_interview` requires status `scheduled`, so
cancelling the freshly created appointment always fails with the state —
appointment, application and all slots — returned unchanged, for either value
of the commit flag. -/
theorem C10_completed_appointment_uncancellable (st : DBState)
    (residentId slotId applicationId now : Nat) (uuidHex : List Nat)
    (application : AddressApplication) (time_slot : AvailableTimeSlot)
    (hApp : findApplication st applicationId = some application)
    (hOwn : application.applicant_id = residentId)
    (hStatus : application.status = "leader_approved")
    (hSlot : findSlot st slotId = some time_slot)
    (hUnbooked : time_slot.is_booked = false) :
    findAppointment
      (book_interview_slot st residentId slotId applicationId now uuidHex
        true).1 (nextAppointmentId st.appointments) =
      some { id := nextAppointmentId st.appointments, resident_id := residentId,
             officer_id := time_slot.officer_id,
             application_id := application.id,
             appointment_date := time_slot.start_time, duration_minutes := 30,
             status := "completed" } ∧
    cancel_interview
      (book_interview_slot st residentId slotId applicationId now uuidHex
        true).1 residentId (nextAppointmentId st.appointments) true =
      ((book_interview_slot st residentId slotId applicationId now uuidHex
        true).1, CancelResult.cannotCancel) ∧
    cancel_interview
      (book_interview_slot st residentId slotId applicationId now uuidHex
        true).1 residentId (nextAppointmentId st.appointments) false =
      ((book_interview_slot st residentId slotId applicationId now uuidHex
        true).1, CancelResult.cannotCancel) := by
  have hc := book_interview_slot_commit st residentId slotId applicationId now
    uuidHex application time_slot hApp hOwn hStatus hSlot hUnbooked
  have hfa : ∀ a ∈ st.appointments,
      (a.id == nextAppointmentId st.appointments) = false := by
    intro a ha
    have := appointment_id_lt_nextId st.appointments a ha
    simp only [beq_eq_false_iff_ne, ne_eq]
    omega
  have hfind : findAppointment
      (book_interview_slot st residentId slotId applicationId now uuidHex
        true).1 (nextAppointmentId st.appointments) =
      some { id := nextAppointmentId st.appointments, resident_id := residentId,
             officer_id := time_slot.officer_id,
             application_id := application.id,
             appointment_date := time_slot.start_time, duration_minutes := 30,
             status := "completed" } := by
    rw [hc]
    unfold findAppointment
    dsimp only
    rw [find?_append_of_forall_false _ hfa]
    simp [List.find?]
  refine ⟨hfind, ?_, ?_⟩ <;>
    · unfold cancel_interview
      rw [hfind]
      simp

/-- Witness: booking in `c2State` and then attempting to cancel the new
appointment (id 1). -/
theorem C10_completed_appointment_uncancellable_witness :
    cancel_interview (book_interview_slot c2State 1 1 1 0 hex32 true).1 1
      (nextAppointmentId c2State.appointments) true =
      ((book_interview_slot c2State 1 1 1 0 hex32 true).1,
        CancelResult.cannotCancel) :=
  have h := C10_completed_appointment_uncancellable c2State 1 1 1 0 hex32
    c2App c2Slot1 (by decide) (by decide) (by decide) (by decide) (by decide)
  h.2.1

end AddressME
